import Mathlib

/-!
Shallow embedding of the F1 chart application (`src/main.py`, class `F1ChartApp`).

Modelling conventions:
* JSON string fields (`points`, `position`) stay strings; Python's `int(...)` and
  `float(...)` become the `Option`-valued parsers `pyInt` and `pyFloat` (ASCII
  decimal semantics; `none` models a raised `ValueError`).
* Numeric chart values are modelled as `Rat`; all arithmetic performed by the
  program (integer sums, division by a list length, parsing of short decimal
  strings) is exact in IEEE doubles at the scales involved, so `Rat` is faithful.
* Python `dict`s with string keys are insertion-ordered association lists;
  `bumpCount` and `addPosition` mirror `d[k] = d.get(k, 0) + 1` and
  `d.setdefault(k, []).append(v)`-style updates.
* A Python loop whose body may raise becomes `foldOpt` / `mapOpt`
  (`none` = an exception propagating out of the loop).
* `self.data` is the `DataStore`; a missing key (`KeyError`), a failing index
  (`IndexError`) and a failing parse (`ValueError`) all surface as `none`,
  which `update_chart` turns into the `UpdateOutcome.exception` outcome
  (an exception escaping the handler, i.e. not reported via a message box).
-/

set_option maxRecDepth 8000

/-- Digits of an ASCII decimal numeral to a natural number; `none` unless the
list is nonempty and all characters are digits. -/
def digitsToNat? (cs : List Char) : Option Nat :=
  if cs ≠ [] ∧ cs.all Char.isDigit then
    some (cs.foldl (fun n c => 10 * n + (c.toNat - 48)) 0)
  else none

/-- Python `int(s)` on an ASCII string: optional sign followed by digits
(`none` models a raised `ValueError`). -/
def pyInt (s : String) : Option Int :=
  match s.toList with
  | '-' :: rest => (digitsToNat? rest).map (fun n => -(n : Int))
  | '+' :: rest => (digitsToNat? rest).map (fun n => (n : Int))
  | cs => (digitsToNat? cs).map (fun n => (n : Int))

/-- Unsigned part of Python `float(s)` for plain decimal numerals
`digits [ '.' digits ]`, with at least one digit overall, split into
(integer part, fractional digits value, fractional digit count). -/
def pyFloatDigitsParts (cs : List Char) : Option (Nat × Nat × Nat) :=
  match cs.dropWhile (fun c => c ≠ '.') with
  | [] => (digitsToNat? cs).map (fun n => (n, 0, 0))
  | '.' :: fp =>
    if ((cs.takeWhile (fun c => c ≠ '.')) ≠ [] ∨ fp ≠ []) ∧
        (cs.takeWhile (fun c => c ≠ '.')).all Char.isDigit ∧ fp.all Char.isDigit then
      some ((cs.takeWhile (fun c => c ≠ '.')).foldl (fun n c => 10 * n + (c.toNat - 48)) 0,
            fp.foldl (fun n c => 10 * n + (c.toNat - 48)) 0,
            fp.length)
    else none
  | _ :: _ => none

/-- Sign and digit parts of Python `float(s)`: `true` marks a leading minus. -/
def pyFloatParts (s : String) : Option (Bool × Nat × Nat × Nat) :=
  match s.toList with
  | '-' :: rest => (pyFloatDigitsParts rest).map (fun q => (true, q))
  | '+' :: rest => (pyFloatDigitsParts rest).map (fun q => (false, q))
  | cs => (pyFloatDigitsParts cs).map (fun q => (false, q))

/-- Numeric value of a parsed decimal numeral. -/
def ratOfParts (q : Bool × Nat × Nat × Nat) : Rat :=
  (if q.1 then -1 else 1) * ((q.2.1 : Rat) + (q.2.2.1 : Rat) / (10 : Rat) ^ q.2.2.2)

/-- Python `float(s)` for plain decimal numerals (optional sign). -/
def pyFloat (s : String) : Option Rat :=
  (pyFloatParts s).map ratOfParts

/-- Python `str.isdigit()` restricted to ASCII: nonempty and all digits. -/
def pyIsdigit (s : String) : Bool :=
  !s.toList.isEmpty && s.toList.all Char.isDigit

/-- One entry of `...StandingsLists[0].DriverStandings`: the fields the program
reads (`Driver.familyName`, `points`). -/
structure DriverStanding where
  familyName : String
  points : String
deriving DecidableEq, Repr

/-- Driver-standings payload: `MRData.StandingsTable.StandingsLists`, each list
holding its `DriverStandings` entries. -/
structure StandingsPayload where
  standingsLists : List (List DriverStanding)
deriving DecidableEq, Repr

/-- One entry of a race's `Results` list: the fields the program reads
(`Driver.familyName`, `position`). -/
structure RaceResult where
  familyName : String
  position : String
deriving DecidableEq, Repr

/-- One race of `MRData.RaceTable.Races`: its ordered `Results` list. -/
structure Race where
  results : List RaceResult
deriving DecidableEq, Repr

/-- Race-results payload: the ordered `MRData.RaceTable.Races` list. -/
structure ResultsPayload where
  races : List Race
deriving DecidableEq, Repr

/-- One entry of `...StandingsLists[0].ConstructorStandings`. -/
structure ConstructorStanding where
  name : String
  points : String
deriving DecidableEq, Repr

/-- Constructor-standings payload. -/
structure ConstructorStandingsPayload where
  standingsLists : List (List ConstructorStanding)
deriving DecidableEq, Repr

/-- The (labels, values) pair handed to `self.ax.bar(labels, values)`. -/
structure ChartSeries where
  labels : List String
  values : List Rat
deriving DecidableEq, Repr

/-- Traverse a list with a fallible function, short-circuiting on failure:
a Python list comprehension whose body may raise. -/
def mapOpt {α β : Type} (f : α → Option β) : List α → Option (List β)
  | [] => some []
  | a :: l =>
    match f a with
    | none => none
    | some b =>
      match mapOpt f l with
      | none => none
      | some bs => some (b :: bs)

/-- Fold a list with a fallible step, short-circuiting on failure:
a Python `for` loop whose body may raise. -/
def foldOpt {σ α : Type} (f : σ → α → Option σ) : σ → List α → Option σ
  | acc, [] => some acc
  | acc, a :: l =>
    match f acc a with
    | none => none
    | some acc2 => foldOpt f acc2 l

/-- Models the `finish_positions` dict update: append `pos` to the entry of
`driver` in an insertion-ordered association list (new keys go to the end,
exactly like a Python dict). -/
def addPosition : List (String × List Int) → String → Int → List (String × List Int)
  | [], driver, pos => [(driver, [pos])]
  | (k, v) :: rest, driver, pos =>
    if k = driver then (k, v ++ [pos]) :: rest
    else (k, v) :: addPosition rest driver pos

/-- Models `counts[driver] = counts.get(driver, 0) + 1` on an insertion-ordered
association list (new keys go to the end, exactly like a Python dict). -/
def bumpCount : List (String × Nat) → String → List (String × Nat)
  | [], driver => [(driver, 1)]
  | (k, v) :: rest, driver =>
    if k = driver then (k, v + 1) :: rest
    else (k, v) :: bumpCount rest driver

/-- Embedding of `F1ChartApp.plot_total_points_distribution` (main.py:82-91), up to the
`ax.bar` call: `StandingsLists[0]` (IndexError on empty list is `none`), then
family names and `float(points)` in payload order. -/
def plot_total_points_distribution (p : StandingsPayload) : Option ChartSeries :=
  match p.standingsLists with
  | [] => none
  | standings :: _ =>
    Option.map (fun points => ⟨standings.map (fun dr => dr.familyName), points⟩)
      (mapOpt (fun dr => pyFloat dr.points) standings)

/-- Embedding of `F1ChartApp.plot_average_finish_position_by_driver` (main.py:93-112):
group `int(position)` per family name over all races in order, then
`sum(positions) / len(positions)` per driver in dict (first-seen) order. -/
def plot_average_finish_position_by_driver (p : ResultsPayload) : Option ChartSeries :=
  Option.map (fun fp =>
      ⟨fp.map (fun q => q.1),
       fp.map (fun q => ((q.2.sum : Int) : Rat) / (q.2.length : Rat))⟩)
    (foldOpt (fun acc race =>
        foldOpt (fun acc2 result =>
            match pyInt result.position with
            | none => none
            | some pos => some (addPosition acc2 result.familyName pos))
          acc race.results)
      [] p.races)

/-- Embedding of `F1ChartApp.plot_most_wins_by_driver` (main.py:114-130):
`race['Results'][0]` (IndexError on an empty result list is `none`), one count
per race for the first-listed driver, dict (first-seen) order. -/
def plot_most_wins_by_driver (p : ResultsPayload) : Option ChartSeries :=
  Option.map (fun wc => ⟨wc.map (fun q => q.1), wc.map (fun q => (q.2 : Rat))⟩)
    (foldOpt (fun acc race =>
        match race.results with
        | [] => none
        | winner :: _ => some (bumpCount acc winner.familyName))
      [] p.races)

/-- Embedding of `F1ChartApp.plot_constructor_championship_standings` (main.py:132-141). -/
def plot_constructor_championship_standings (p : ConstructorStandingsPayload) :
    Option ChartSeries :=
  match p.standingsLists with
  | [] => none
  | standings :: _ =>
    Option.map (fun points => ⟨standings.map (fun c => c.name), points⟩)
      (mapOpt (fun c => pyFloat c.points) standings)

/-- Embedding of `F1ChartApp.plot_podium_finishes_by_driver` (main.py:143-161):
`int(position)` parsed for every result, counted for the driver only when
`position <= 3`, dict (first-seen among counted results) order. -/
def plot_podium_finishes_by_driver (p : ResultsPayload) : Option ChartSeries :=
  Option.map (fun pc => ⟨pc.map (fun q => q.1), pc.map (fun q => (q.2 : Rat))⟩)
    (foldOpt (fun acc race =>
        foldOpt (fun acc2 result =>
            match pyInt result.position with
            | none => none
            | some pos => some (if pos ≤ 3 then bumpCount acc2 result.familyName else acc2))
          acc race.results)
      [] p.races)

/-- Model of `self.data`: one optional slot per dict key (`'standings'`, `'results'`,
`'constructor_standings'`); a key is present iff its slot is `some`. -/
structure DataStore where
  standings : Option StandingsPayload
  results : Option ResultsPayload
  constructor_standings : Option ConstructorStandingsPayload
deriving DecidableEq, Repr

/-- The initial `self.data = {}`. -/
def DataStore.empty : DataStore := ⟨none, none, none⟩

/-- Python truthiness test `not self.data`: the dict is empty iff no key was
ever assigned (keys are never deleted). -/
def DataStore.isEmpty (d : DataStore) : Bool :=
  d.standings.isNone && d.results.isNone && d.constructor_standings.isNone

/-- Outcome of `fetch_data`: which message box is shown. -/
inductive FetchOutcome where
  | invalidSeason
  | fetchError
  | success
deriving DecidableEq, Repr

/-- Embedding of `F1ChartApp.fetch_data` (main.py:53-80). `r1`, `r2`, `r3` model the three
HTTP responses in request order (`none` = non-success status or transport
failure, i.e. `raise_for_status`/`requests.get` raising `RequestException`).
Returns the new store, the surfaced outcome, and the number of HTTP requests
issued. Each payload is assigned to `self.data` as soon as its own request
succeeds, before the next request is attempted. -/
def fetch_data (d : DataStore) (season : String)
    (r1 : Option StandingsPayload) (r2 : Option ResultsPayload)
    (r3 : Option ConstructorStandingsPayload) :
    DataStore × FetchOutcome × Nat :=
  if pyIsdigit season = false then (d, .invalidSeason, 0)
  else
    match r1 with
    | none => (d, .fetchError, 1)
    | some p1 =>
      match r2 with
      | none => ({ d with standings := some p1 }, .fetchError, 2)
      | some p2 =>
        match r3 with
        | none => ({ d with standings := some p1, results := some p2 }, .fetchError, 3)
        | some p3 =>
          ({ standings := some p1, results := some p2, constructor_standings := some p3 },
           .success, 3)

/-- The five fixed options of the read-only chart-type combobox. -/
inductive ChartType where
  | totalPoints
  | avgFinish
  | mostWins
  | constructors
  | podium
deriving DecidableEq, Repr

/-- Drawing surface: `figure` is the current axes content, `visible` is what
the canvas last committed via `canvas.draw()`. -/
structure Surface where
  figure : Option ChartSeries
  visible : Option ChartSeries
deriving DecidableEq, Repr

/-- Outcome of `update_chart`: the no-data message box, a committed redraw, or
an exception escaping the handler (no `try` surrounds the plot calls). -/
inductive UpdateOutcome where
  | errorNoData
  | drawn
  | exception
deriving DecidableEq, Repr

/-- Dispatch of `update_chart` on the selected chart type; a missing
`self.data` key (KeyError) or a failing plot routine is `none`. -/
def dispatchPlot (d : DataStore) (ct : ChartType) : Option ChartSeries :=
  match ct with
  | .totalPoints => d.standings.bind plot_total_points_distribution
  | .avgFinish => d.results.bind plot_average_finish_position_by_driver
  | .mostWins => d.results.bind plot_most_wins_by_driver
  | .constructors => d.constructor_standings.bind plot_constructor_championship_standings
  | .podium => d.results.bind plot_podium_finishes_by_driver

/-- Embedding of `F1ChartApp.update_chart` (main.py:163-182): error message and early return
when `self.data` is empty; otherwise `ax.clear()`, the selected plot routine,
and `canvas.draw()` — an exception in the plot routine escapes after the clear,
so the canvas never commits it. -/
def update_chart (d : DataStore) (surf : Surface) (ct : ChartType) :
    Surface × UpdateOutcome :=
  if d.isEmpty then (surf, .errorNoData)
  else
    match dispatchPlot d ct with
    | none => ({ surf with figure := none }, .exception)
    | some s => (⟨some s, some s⟩, .drawn)

/-- Spec-side reading of C2's precondition (refinement target, from the spec's
words, not the source): the season string parses as a positive integer. -/
def specParsesAsPositiveInt (s : String) : Bool :=
  match pyInt s with
  | some n => decide (0 < n)
  | none => false

/-- One parsed event of a results payload: `(familyName, int(position))`. -/
def parseEv (r : RaceResult) : Option (String × Int) :=
  match pyInt r.position with
  | none => none
  | some n => some (r.familyName, n)

/-- All results of all races, flattened in traversal order. -/
def raceResultsFlat : List Race → List RaceResult
  | [] => []
  | race :: rest => race.results ++ raceResultsFlat rest

/-- The `(familyName, int(position))` event stream of a payload, in the order
the nested loops visit it; `none` iff some position fails to parse. -/
def parsedEvents (p : ResultsPayload) : Option (List (String × Int)) :=
  mapOpt parseEv (raceResultsFlat p.races)

/-- First-listed driver of each race; `none` iff some race has no results. -/
def winnersList : List Race → Option (List String) :=
  mapOpt (fun race =>
    match race.results with
    | [] => none
    | winner :: _ => some winner.familyName)

/-- First-listed driver of each race of a payload. -/
def winnersOf (p : ResultsPayload) : Option (List String) :=
  winnersList p.races

/-- Accumulate a name, keeping only its first occurrence position. -/
def seenStep (acc : List String) (d : String) : List String :=
  if d ∈ acc then acc else acc ++ [d]

/-- The distinct names of a list, in first-seen order (Python dict key order). -/
def firstSeenDrivers (ds : List String) : List String :=
  ds.foldl seenStep []

/-- First-match lookup in an association list, with a default. -/
def assocGet {β : Type} (d0 : β) : List (String × β) → String → β
  | [], _ => d0
  | (k, v) :: rest, d => if k = d then v else assocGet d0 rest d

/-! ### Concrete instances used by witnesses and counterexamples -/

/-- Concrete standings payload for the C1 counterexample. -/
def pC1 : StandingsPayload := ⟨[[⟨"Verstappen", "575"⟩]]⟩

/-- Concrete standings payload for the C3 witness. -/
def pW3 : StandingsPayload := ⟨[[⟨"Verstappen", "575"⟩, ⟨"Perez", "285.5"⟩]]⟩

/-- Concrete series produced for `pW3`. -/
def sW3 : ChartSeries := ⟨["Verstappen", "Perez"], [575, (571 : Rat) / 2]⟩

/-- Concrete results payload for the C4 witness: three races, two winners. -/
def pW4 : ResultsPayload :=
  ⟨[⟨[⟨"Hamilton", "1"⟩, ⟨"Bottas", "2"⟩]⟩, ⟨[⟨"Bottas", "1"⟩]⟩, ⟨[⟨"Hamilton", "1"⟩]⟩]⟩

/-- Concrete series produced for `pW4`. -/
def sW4 : ChartSeries := ⟨["Hamilton", "Bottas"], [2, 1]⟩

/-- Concrete results payload for the C6 witness: one driver with positions
1, 3 and 2 across three races. -/
def pW6 : ResultsPayload :=
  ⟨[⟨[⟨"Alonso", "1"⟩]⟩, ⟨[⟨"Alonso", "3"⟩]⟩, ⟨[⟨"Alonso", "2"⟩]⟩]⟩

/-- Concrete series produced for `pW6`: the mean of [1, 3, 2] is 2. -/
def sW6 : ChartSeries := ⟨["Alonso"], [2]⟩

/-- Concrete results payload for the C5 witness: two races, one position 4
result that must not be counted. -/
def pW5 : ResultsPayload :=
  ⟨[⟨[⟨"Leclerc", "1"⟩, ⟨"Sainz", "4"⟩]⟩, ⟨[⟨"Leclerc", "2"⟩]⟩]⟩

/-- Concrete series produced for `pW5`: only the two position ≤ 3 results. -/
def sW5 : ChartSeries := ⟨["Leclerc"], [2]⟩

/-- Concrete results payload for the C9 witness. -/
def pW9 : ResultsPayload := ⟨[⟨[⟨"Hulkenberg", "1"⟩]⟩]⟩

/-- Concrete series produced for `pW9`. -/
def sW9 : ChartSeries := ⟨["Hulkenberg"], [1]⟩

/-- Concrete results payload for the C10 witness: the same driver wins both
races, yet appears only once among the labels. -/
def pW10 : ResultsPayload := ⟨[⟨[⟨"Norris", "1"⟩]⟩, ⟨[⟨"Norris", "1"⟩]⟩]⟩

/-- Concrete series produced for `pW10`. -/
def sW10 : ChartSeries := ⟨["Norris"], [2]⟩

/-- Concrete loaded store for C8: all three payloads present, one position
value "DNF" that `int(...)` cannot parse. -/
def dC8 : DataStore :=
  ⟨some ⟨[[⟨"Verstappen", "575"⟩]]⟩,
   some ⟨[⟨[⟨"Verstappen", "DNF"⟩]⟩]⟩,
   some ⟨[[⟨"Red Bull", "860"⟩]]⟩⟩

/-! ### Helper lemmas: fallible traversals -/

theorem mapOpt_length {α β : Type} (f : α → Option β) :
    ∀ (l : List α) (bs : List β), mapOpt f l = some bs → bs.length = l.length := by
  intro l
  induction l with
  | nil =>
    intro bs h
    simp only [mapOpt, Option.some.injEq] at h
    simp [← h]
  | cons a l ih =>
    intro bs h
    simp only [mapOpt] at h
    cases hf : f a with
    | none => rw [hf] at h; cases h
    | some b =>
      rw [hf] at h
      cases hm : mapOpt f l with
      | none => rw [hm] at h; cases h
      | some bs2 =>
        rw [hm] at h
        simp only [Option.some.injEq] at h
        subst h
        simp [ih bs2 hm]

theorem mapOpt_append {α β : Type} (f : α → Option β) (l1 l2 : List α) :
    mapOpt f (l1 ++ l2)
      = (mapOpt f l1).bind (fun b1 => (mapOpt f l2).map (fun b2 => b1 ++ b2)) := by
  induction l1 with
  | nil =>
    simp only [List.nil_append, mapOpt, Option.some_bind]
    cases h : mapOpt f l2 <;> simp [h]
  | cons a l1 ih =>
    cases hf : f a with
    | none => simp [mapOpt, hf]
    | some b =>
      simp only [List.cons_append, mapOpt, hf, List.append_eq]
      rw [ih]
      cases h1 : mapOpt f l1 with
      | none => simp
      | some bs1 =>
        cases h2 : mapOpt f l2 <;> simp

theorem foldOpt_resLoop {σ : Type} (g : σ → String → Int → σ) (rs : List RaceResult) :
    ∀ acc : σ,
      foldOpt (fun a r =>
        match pyInt r.position with
        | none => none
        | some n => some (g a r.familyName n)) acc rs
      = Option.map (fun evs => evs.foldl (fun a e => g a e.1 e.2) acc) (mapOpt parseEv rs) := by
  induction rs with
  | nil => intro acc; rfl
  | cons r rs ih =>
    intro acc
    cases hp : pyInt r.position with
    | none => simp [foldOpt, mapOpt, parseEv, hp]
    | some n =>
      simp only [foldOpt, mapOpt, parseEv, hp, ih]
      cases hm : mapOpt parseEv rs with
      | none => simp
      | some evs => simp [List.foldl]

theorem foldOpt_raceLoop {σ : Type} (g : σ → String → Int → σ) (races : List Race) :
    ∀ acc : σ,
      foldOpt (fun a race =>
        foldOpt (fun a2 r =>
          match pyInt r.position with
          | none => none
          | some n => some (g a2 r.familyName n)) a race.results) acc races
      = Option.map (fun evs => evs.foldl (fun a e => g a e.1 e.2) acc)
          (mapOpt parseEv (raceResultsFlat races)) := by
  induction races with
  | nil => intro acc; rfl
  | cons race races ih =>
    intro acc
    simp only [foldOpt]
    rw [foldOpt_resLoop g race.results acc]
    simp only [raceResultsFlat, mapOpt_append]
    cases h1 : mapOpt parseEv race.results with
    | none => simp
    | some evs1 =>
      simp only [h1, Option.map_some', Option.some_bind, ih]
      cases h2 : mapOpt parseEv (raceResultsFlat races) with
      | none => simp
      | some evs2 => simp [List.foldl_append]

theorem avgFold_eq (races : List Race) :
    foldOpt (fun acc race =>
      foldOpt (fun acc2 result =>
        match pyInt result.position with
        | none => none
        | some pos => some (addPosition acc2 result.familyName pos))
        acc race.results) [] races
    = Option.map (fun evs => evs.foldl (fun a e => addPosition a e.1 e.2) [])
        (mapOpt parseEv (raceResultsFlat races)) :=
  foldOpt_raceLoop (fun a name pos => addPosition a name pos) races []

theorem podFold_eq (races : List Race) :
    foldOpt (fun acc race =>
      foldOpt (fun acc2 result =>
        match pyInt result.position with
        | none => none
        | some pos => some (if pos ≤ 3 then bumpCount acc2 result.familyName else acc2))
        acc race.results) [] races
    = Option.map (fun evs =>
          evs.foldl (fun a e => if e.2 ≤ 3 then bumpCount a e.1 else a) [])
        (mapOpt parseEv (raceResultsFlat races)) :=
  foldOpt_raceLoop (fun a name pos => if pos ≤ 3 then bumpCount a name else a) races []

theorem winsFold_eq (races : List Race) :
    ∀ t : List (String × Nat),
      foldOpt (fun acc race =>
        match race.results with
        | [] => none
        | winner :: _ => some (bumpCount acc winner.familyName)) t races
      = Option.map (fun ws => ws.foldl bumpCount t) (winnersList races) := by
  induction races with
  | nil => intro t; rfl
  | cons race races ih =>
    intro t
    cases hr : race.results with
    | nil => simp [foldOpt, winnersList, mapOpt, hr]
    | cons w rest =>
      simp only [foldOpt, hr, ih]
      simp only [winnersList, mapOpt, hr]
      cases hm : mapOpt (fun race =>
          match race.results with
          | [] => none
          | winner :: _ => some winner.familyName) races with
      | none => simp
      | some ws => simp [List.foldl]

/-! ### Helper lemmas: insertion-ordered association lists -/

theorem assocGet_bumpCount (t : List (String × Nat)) (d d' : String) :
    assocGet 0 (bumpCount t d) d' =
      if d' = d then assocGet 0 t d' + 1 else assocGet 0 t d' := by
  induction t with
  | nil =>
    by_cases h : d' = d
    · subst h; simp [bumpCount, assocGet]
    · have h2 : ¬d = d' := fun hh => h hh.symm
      simp [bumpCount, assocGet, h, h2]
  | cons kv t ih =>
    obtain ⟨k, v⟩ := kv
    by_cases hk : k = d
    · subst hk
      by_cases h : d' = k
      · subst h; simp [bumpCount, assocGet]
      · have h2 : ¬k = d' := fun hh => h hh.symm
        simp [bumpCount, assocGet, h, h2]
    · by_cases h : k = d'
      · have h2 : ¬d' = d := fun hh => hk (h.trans hh)
        simp [bumpCount, assocGet, hk, h, h2]
      · simp [bumpCount, assocGet, hk, h, ih]

theorem assocGet_addPosition (t : List (String × List Int)) (d d' : String) (pos : Int) :
    assocGet [] (addPosition t d pos) d' =
      if d' = d then assocGet [] t d' ++ [pos] else assocGet [] t d' := by
  induction t with
  | nil =>
    by_cases h : d' = d
    · subst h; simp [addPosition, assocGet]
    · have h2 : ¬d = d' := fun hh => h hh.symm
      simp [addPosition, assocGet, h, h2]
  | cons kv t ih =>
    obtain ⟨k, v⟩ := kv
    by_cases hk : k = d
    · subst hk
      by_cases h : d' = k
      · subst h; simp [addPosition, assocGet]
      · have h2 : ¬k = d' := fun hh => h hh.symm
        simp [addPosition, assocGet, h, h2]
    · by_cases h : k = d'
      · have h2 : ¬d' = d := fun hh => hk (h.trans hh)
        simp [addPosition, assocGet, hk, h, h2]
      · simp [addPosition, assocGet, hk, h, ih]

theorem keys_bumpCount (t : List (String × Nat)) (d : String) :
    (bumpCount t d).map (fun q => q.1) = seenStep (t.map (fun q => q.1)) d := by
  induction t with
  | nil => simp [bumpCount, seenStep]
  | cons kv t ih =>
    obtain ⟨k, v⟩ := kv
    by_cases hk : k = d
    · subst hk; simp [bumpCount, seenStep]
    · have h2 : ¬d = k := fun hh => hk hh.symm
      simp [bumpCount, seenStep, hk, h2, ih]
      by_cases hm : d ∈ t.map (fun q => q.1) <;> simp [hm, h2]

theorem keys_addPosition (t : List (String × List Int)) (d : String) (pos : Int) :
    (addPosition t d pos).map (fun q => q.1) = seenStep (t.map (fun q => q.1)) d := by
  induction t with
  | nil => simp [addPosition, seenStep]
  | cons kv t ih =>
    obtain ⟨k, v⟩ := kv
    by_cases hk : k = d
    · subst hk; simp [addPosition, seenStep]
    · have h2 : ¬d = k := fun hh => hk hh.symm
      simp [addPosition, seenStep, hk, h2, ih]
      by_cases hm : d ∈ t.map (fun q => q.1) <;> simp [hm, h2]

theorem sumCounts_bumpCount (t : List (String × Nat)) (d : String) :
    ((bumpCount t d).map (fun q => q.2)).sum = ((t.map (fun q => q.2)).sum) + 1 := by
  induction t with
  | nil => simp [bumpCount]
  | cons kv t ih =>
    obtain ⟨k, v⟩ := kv
    by_cases hk : k = d
    · subst hk; simp [bumpCount]; omega
    · simp [bumpCount, hk, ih]; omega

theorem assocGet_foldl_bump (ds : List String) :
    ∀ (t : List (String × Nat)) (d : String),
      assocGet 0 (ds.foldl bumpCount t) d =
        assocGet 0 t d + (ds.filter (fun x => decide (x = d))).length := by
  induction ds with
  | nil => intro t d; simp
  | cons a ds ih =>
    intro t d
    simp only [List.foldl_cons, ih, assocGet_bumpCount, List.filter_cons]
    by_cases h : a = d
    · subst h; simp; omega
    · have h2 : ¬d = a := fun hh => h hh.symm
      simp [h, h2]

theorem assocGet_foldl_add (evs : List (String × Int)) :
    ∀ (t : List (String × List Int)) (d : String),
      assocGet [] (evs.foldl (fun a e => addPosition a e.1 e.2) t) d =
        assocGet [] t d ++ (evs.filter (fun e => decide (e.1 = d))).map (fun e => e.2) := by
  induction evs with
  | nil => intro t d; simp
  | cons e evs ih =>
    intro t d
    simp only [List.foldl_cons, ih, assocGet_addPosition, List.filter_cons]
    by_cases h : e.1 = d
    · simp [h, List.append_assoc]
    · have h2 : ¬d = e.1 := fun hh => h hh.symm
      simp [h, h2]

theorem keys_foldl_bump (ds : List String) :
    ∀ t : List (String × Nat),
      (ds.foldl bumpCount t).map (fun q => q.1) =
        ds.foldl seenStep (t.map (fun q => q.1)) := by
  induction ds with
  | nil => intro t; simp
  | cons a ds ih =>
    intro t
    simp only [List.foldl_cons, ih, keys_bumpCount]

theorem keys_foldl_add (evs : List (String × Int)) :
    ∀ t : List (String × List Int),
      (evs.foldl (fun a e => addPosition a e.1 e.2) t).map (fun q => q.1) =
        (evs.map (fun e => e.1)).foldl seenStep (t.map (fun q => q.1)) := by
  induction evs with
  | nil => intro t; simp
  | cons e evs ih =>
    intro t
    simp only [List.foldl_cons, List.map_cons, ih, keys_addPosition]

theorem nodup_foldl_seen (ds : List String) :
    ∀ acc : List String, acc.Nodup → (ds.foldl seenStep acc).Nodup := by
  induction ds with
  | nil => intro acc h; simpa using h
  | cons a ds ih =>
    intro acc h
    refine ih (seenStep acc a) ?_
    by_cases hm : a ∈ acc
    · simpa [seenStep, hm] using h
    · simp only [seenStep, if_neg hm]
      exact List.Nodup.append h (List.nodup_singleton a)
        (by simpa [List.disjoint_singleton] using hm)

theorem sum_foldl_bump (ds : List String) :
    ∀ t : List (String × Nat),
      ((ds.foldl bumpCount t).map (fun q => q.2)).sum =
        ((t.map (fun q => q.2)).sum) + ds.length := by
  induction ds with
  | nil => intro t; simp
  | cons a ds ih =>
    intro t
    simp only [List.foldl_cons, ih, sumCounts_bumpCount, List.length_cons]
    omega

theorem sum_map_cast (t : List (String × Nat)) :
    ((t.map (fun q => (q.2 : Rat))).sum) = (((t.map (fun q => q.2)).sum : Nat) : Rat) := by
  induction t with
  | nil => simp
  | cons kv t ih => simp [ih]

theorem lookup_map_assoc {β γ : Type} (f : β → γ) (d0 : β) :
    ∀ (t : List (String × β)) (d : String), d ∈ t.map (fun q => q.1) →
      List.lookup d (t.map (fun q => (q.1, f q.2))) = some (f (assocGet d0 t d)) := by
  intro t
  induction t with
  | nil => intro d h; cases h
  | cons kv t ih =>
    intro d h
    obtain ⟨k, v⟩ := kv
    by_cases hk : k = d
    · subst hk
      simp [List.lookup, assocGet]
    · have h2 : ¬(d = k) := fun hh => hk hh.symm
      have hmem : d ∈ t.map (fun q => q.1) := by
        simpa [h2] using h
      simp [List.lookup, assocGet, hk, h2, beq_false_of_ne h2, ih d hmem]

theorem zip_map_pair {β γ : Type} (f1 : String × β → String) (f2 : String × β → γ)
    (t : List (String × β)) :
    (t.map f1).zip (t.map f2) = t.map (fun q => (f1 q, f2 q)) := by
  induction t with
  | nil => simp
  | cons kv t ih => simp [ih]

theorem foldl_podium_skip (evs : List (String × Int)) :
    ∀ t : List (String × Nat),
      evs.foldl (fun a e => if e.2 ≤ 3 then bumpCount a e.1 else a) t
      = (evs.filter (fun e => decide (e.2 ≤ 3))).foldl (fun a e => bumpCount a e.1) t := by
  induction evs with
  | nil => intro t; rfl
  | cons e evs ih =>
    intro t
    by_cases h : e.2 ≤ 3 <;> simp [List.filter_cons, h, ih]

theorem foldl_bump_on_fst (evs : List (String × Int)) (t : List (String × Nat)) :
    evs.foldl (fun a e => bumpCount a e.1) t = (evs.map (fun e => e.1)).foldl bumpCount t := by
  rw [List.foldl_map]

theorem filter_fst_length (evs : List (String × Int)) (d : String) :
    ((evs.map (fun e => e.1)).filter (fun x => decide (x = d))).length
      = (evs.filter (fun e => decide (e.1 = d))).length := by
  induction evs with
  | nil => rfl
  | cons e evs ih =>
    by_cases h : e.1 = d <;> simp [List.filter_cons, h, ih]

/-! ### Claim theorems -/

/-- C7: invoking Update Chart in the Idle state (empty data store) reports the
no-data precondition error, performs no aggregation and no draw, and leaves the
drawing surface unchanged. -/
theorem C7_update_chart_idle (d : DataStore) (surf : Surface) (ct : ChartType)
    (h : d.isEmpty = true) :
    update_chart d surf ct = (surf, UpdateOutcome.errorNoData) := by
  simp [update_chart, h]

/-- C7 witness: the initial empty store with a nonempty drawing surface. -/
theorem C7_update_chart_idle_witness :
    DataStore.empty.isEmpty = true ∧
    update_chart DataStore.empty ⟨none, some ⟨["X"], []⟩⟩ ChartType.totalPoints =
      (⟨none, some ⟨["X"], []⟩⟩, UpdateOutcome.errorNoData) :=
  ⟨by decide,
   C7_update_chart_idle DataStore.empty ⟨none, some ⟨["X"], []⟩⟩ ChartType.totalPoints (by decide)⟩

/-- C2 counterexample: the season string "0" does not parse as a positive
integer, yet the fetch is not rejected before network access: the isdigit
check passes and (with a failing first response) one HTTP request is issued
and the outcome is not the validation error. -/
theorem C2_counterexample_zero_season :
    specParsesAsPositiveInt "0" = false ∧
    (fetch_data DataStore.empty "0" none none none).2.2 = 1 ∧
    (fetch_data DataStore.empty "0" none none none).2.1 ≠ FetchOutcome.invalidSeason :=
  ⟨by decide, by decide, by decide⟩

/-- C2 (amended): for every season string that is not a nonempty all-digit
string, the fetch is rejected before any network request: the validation
error is surfaced, zero HTTP requests are issued, and the stored payload
state is unchanged. (The code's check is `isdigit`, which also admits digit
strings such as "0" that are not positive integers.) -/
theorem C2_invalid_season_rejected (d : DataStore) (season : String)
    (r1 : Option StandingsPayload) (r2 : Option ResultsPayload)
    (r3 : Option ConstructorStandingsPayload)
    (h : pyIsdigit season = false) :
    fetch_data d season r1 r2 r3 = (d, FetchOutcome.invalidSeason, 0) := by
  simp [fetch_data, h]

/-- C2 witness: the non-numeric season "abc". -/
theorem C2_invalid_season_rejected_witness :
    pyIsdigit "abc" = false ∧
    fetch_data DataStore.empty "abc" none none none =
      (DataStore.empty, FetchOutcome.invalidSeason, 0) :=
  ⟨by decide, C2_invalid_season_rejected DataStore.empty "abc" none none none (by decide)⟩

/-- C1 counterexample: the second of the three requests fails, yet the
standings payload stored by the first request is retained in the data store,
and a subsequent Update Chart does not behave as if no fetch had been
attempted: from the initial store it reports the no-data error, but after the
failed fetch it does not (here it ends in an uncaught KeyError instead). -/
theorem C1_counterexample_retained_payload :
    (fetch_data DataStore.empty "2023" (some pC1) none none).2.1 = FetchOutcome.fetchError ∧
    (fetch_data DataStore.empty "2023" (some pC1) none none).1.standings = some pC1 ∧
    (update_chart (fetch_data DataStore.empty "2023" (some pC1) none none).1
        ⟨none, none⟩ ChartType.avgFinish).2 ≠ UpdateOutcome.errorNoData ∧
    (update_chart DataStore.empty ⟨none, none⟩ ChartType.avgFinish).2 =
      UpdateOutcome.errorNoData :=
  ⟨by decide, by decide, by decide, by decide⟩

/-- C1 (amended): if the first request fails the store is unchanged and no
payload is retained, but if a later request fails the payloads already
fetched are retained (standings after a second-request failure; standings and
results after a third-request failure), and after such an incomplete fetch from
the empty store, Update Chart no longer reports the no-data error for any
chart type. -/
theorem C1_fetch_failure_retention (d : DataStore) (season : String)
    (p1 : StandingsPayload) (p2 : ResultsPayload)
    (r2 : Option ResultsPayload) (r3 : Option ConstructorStandingsPayload)
    (hseason : pyIsdigit season = true) :
    fetch_data d season none r2 r3 = (d, FetchOutcome.fetchError, 1) ∧
    (fetch_data d season (some p1) none r3).1 = { d with standings := some p1 } ∧
    (fetch_data d season (some p1) (some p2) none).1 =
      { d with standings := some p1, results := some p2 } ∧
    ∀ (surf : Surface) (ct : ChartType),
      (update_chart (fetch_data DataStore.empty season (some p1) none r3).1 surf ct).2 ≠
        UpdateOutcome.errorNoData := by
  refine ⟨by simp [fetch_data, hseason], by simp [fetch_data, hseason],
    by simp [fetch_data, hseason], ?_⟩
  intro surf ct
  have hstore : (fetch_data DataStore.empty season (some p1) none r3).1 =
      { DataStore.empty with standings := some p1 } := by
    simp [fetch_data, hseason]
  rw [hstore]
  have hne : ({ DataStore.empty with standings := some p1 } : DataStore).isEmpty = false := by
    simp [DataStore.isEmpty, DataStore.empty]
  cases hdp : dispatchPlot { DataStore.empty with standings := some p1 } ct with
  | none => simp [update_chart, hne, hdp]
  | some s => simp [update_chart, hne, hdp]

/-- C1 witness: season "2023", a concrete standings payload, second request
failing. -/
theorem C1_fetch_failure_retention_witness :
    pyIsdigit "2023" = true ∧
    fetch_data DataStore.empty "2023" none none none =
      (DataStore.empty, FetchOutcome.fetchError, 1) ∧
    (update_chart (fetch_data DataStore.empty "2023" (some pC1) none none).1
        ⟨none, none⟩ ChartType.mostWins).2 ≠ UpdateOutcome.errorNoData :=
  ⟨by decide,
   (C1_fetch_failure_retention DataStore.empty "2023" pC1 ⟨[]⟩ none none (by decide)).1,
   (C1_fetch_failure_retention DataStore.empty "2023" pC1 ⟨[]⟩ none none (by decide)).2.2.2
     ⟨none, none⟩ ChartType.mostWins⟩

/-- C3: for every standings payload whose StandingsLists starts with the entry
list l0, a successful Total Points Distribution produces a series whose labels
are the drivers' family names of l0 in payload order, whose values are the
float-parsed points fields of l0 in the same order, and whose label and value
counts both equal the number of driver entries. -/
theorem C3_total_points_series (p : StandingsPayload) (l0 : List DriverStanding)
    (rest : List (List DriverStanding)) (s : ChartSeries)
    (hp : p.standingsLists = l0 :: rest)
    (hs : plot_total_points_distribution p = some s) :
    s.labels = l0.map (fun dr => dr.familyName) ∧
    mapOpt (fun dr => pyFloat dr.points) l0 = some s.values ∧
    s.labels.length = l0.length ∧ s.values.length = l0.length := by
  simp only [plot_total_points_distribution, hp] at hs
  cases hm : mapOpt (fun dr => pyFloat dr.points) l0 with
  | none => rw [hm] at hs; cases hs
  | some vs =>
    rw [hm] at hs
    simp only [Option.map_some', Option.some.injEq] at hs
    subst hs
    exact ⟨rfl, rfl, by simp, by simp [mapOpt_length _ _ _ hm]⟩

/-- C3 witness: a two-driver standings payload with an integral and a
fractional points value. -/
theorem C3_total_points_series_witness :
    plot_total_points_distribution pW3 = some sW3 ∧
    sW3.labels = [(⟨"Verstappen", "575"⟩ : DriverStanding), ⟨"Perez", "285.5"⟩].map
      (fun dr => dr.familyName) ∧
    sW3.labels.length = 2 ∧ sW3.values.length = 2 := by
  have h1 : pyFloatParts "575" = some (false, 575, 0, 0) := by decide
  have h2 : pyFloatParts "285.5" = some (false, 285, 5, 1) := by decide
  have hs : plot_total_points_distribution pW3 = some sW3 := by
    simp only [pW3, plot_total_points_distribution, mapOpt, pyFloat, h1, h2,
      Option.map_some', sW3]
    simp [ratOfParts]
    norm_num
  have hc := C3_total_points_series pW3
    [(⟨"Verstappen", "575"⟩ : DriverStanding), ⟨"Perez", "285.5"⟩] [] sW3 rfl hs
  exact ⟨hs, hc.1, hc.2.2.1, hc.2.2.2⟩

/-- C4: when Most Wins by Driver succeeds on a results payload, and ws is the
list of each race's first-listed result driver (in race order, no sorting by
position), the series labels are the distinct winners in first-seen order, the
value paired with each driver is the number of races whose first-listed entry
names that driver, and the values sum to the number of races in the payload
(exactly one win attributed per race). -/
theorem C4_one_win_per_race (p : ResultsPayload) (s : ChartSeries) (ws : List String)
    (hs : plot_most_wins_by_driver p = some s)
    (hw : winnersOf p = some ws) :
    s.labels = firstSeenDrivers ws ∧
    (∀ d ∈ s.labels,
      (s.labels.zip s.values).lookup d =
        some (((ws.filter (fun x => decide (x = d))).length : Rat))) ∧
    s.values.sum = (p.races.length : Rat) := by
  unfold plot_most_wins_by_driver at hs
  rw [winsFold_eq] at hs
  unfold winnersOf at hw
  rw [hw] at hs
  simp only [Option.map_some', Option.some.injEq] at hs
  subst hs
  refine ⟨?_, ?_, ?_⟩
  · show (ws.foldl bumpCount []).map (fun q => q.1) = firstSeenDrivers ws
    rw [keys_foldl_bump]
    rfl
  · intro d hd
    have hd2 : d ∈ (ws.foldl bumpCount []).map (fun q => q.1) := hd
    have hzip : ((ws.foldl bumpCount []).map (fun q => q.1)).zip
          ((ws.foldl bumpCount []).map (fun q => (q.2 : Rat)))
        = (ws.foldl bumpCount []).map (fun q => (q.1, (q.2 : Rat))) :=
      zip_map_pair _ _ _
    have hlook : List.lookup d ((ws.foldl bumpCount []).map (fun q => (q.1, (q.2 : Rat))))
        = some ((assocGet 0 (ws.foldl bumpCount []) d : Nat) : Rat) :=
      lookup_map_assoc (fun v : Nat => (v : Rat)) 0 _ d hd2
    have hget : assocGet 0 (ws.foldl bumpCount []) d
        = (ws.filter (fun x => decide (x = d))).length := by
      rw [assocGet_foldl_bump]
      simp [assocGet]
    show List.lookup d (((ws.foldl bumpCount []).map (fun q => q.1)).zip
        ((ws.foldl bumpCount []).map (fun q => (q.2 : Rat)))) = _
    rw [hzip, hlook, hget]
  · show ((ws.foldl bumpCount []).map (fun q => (q.2 : Rat))).sum = (p.races.length : Rat)
    rw [sum_map_cast, sum_foldl_bump]
    have hlen : ws.length = p.races.length := mapOpt_length _ _ _ hw
    simp [hlen]

/-- C4 witness: a three-race payload; the values sum to the race count. -/
theorem C4_one_win_per_race_witness :
    plot_most_wins_by_driver pW4 = some sW4 ∧
    winnersOf pW4 = some ["Hamilton", "Bottas", "Hamilton"] ∧
    sW4.labels = firstSeenDrivers ["Hamilton", "Bottas", "Hamilton"] ∧
    (sW4.labels.zip sW4.values).lookup "Hamilton" = some 2 ∧
    sW4.values.sum = (pW4.races.length : Rat) := by
  have hplot : plot_most_wins_by_driver pW4 = some sW4 := by
    unfold plot_most_wins_by_driver
    rw [show foldOpt (fun acc race =>
        match race.results with
        | [] => none
        | winner :: _ => some (bumpCount acc winner.familyName)) [] pW4.races
      = some [("Hamilton", 2), ("Bottas", 1)] from by decide]
    simp [sW4]
  have hw : winnersOf pW4 = some ["Hamilton", "Bottas", "Hamilton"] := by decide
  have hc := C4_one_win_per_race pW4 sW4 ["Hamilton", "Bottas", "Hamilton"] hplot hw
  refine ⟨hplot, hw, hc.1, ?_, hc.2.2⟩
  rw [hc.2.1 "Hamilton" (by decide)]
  rw [show ((["Hamilton", "Bottas", "Hamilton"].filter
      (fun x => decide (x = "Hamilton"))).length) = 2 from by decide]
  norm_num

theorem mem_foldl_seen (ds : List String) :
    ∀ (acc : List String) (d : String),
      d ∈ ds.foldl seenStep acc ↔ d ∈ acc ∨ d ∈ ds := by
  induction ds with
  | nil => intro acc d; simp
  | cons a ds ih =>
    intro acc d
    rw [List.foldl_cons, ih]
    by_cases hm : a ∈ acc
    · simp only [seenStep, if_pos hm, List.mem_cons]
      constructor
      · rintro (h | h)
        · exact Or.inl h
        · exact Or.inr (Or.inr h)
      · rintro (h | h | h)
        · exact Or.inl h
        · exact Or.inl (h ▸ hm)
        · exact Or.inr h
    · simp only [seenStep, if_neg hm, List.mem_append, List.mem_singleton, List.mem_cons]
      tauto

/-- C6: when Average Finish Position by Driver succeeds on a results payload
whose parsed (driver, position) event stream is evs, the labels are the
distinct drivers of the stream in first-seen order (exactly the drivers
appearing in at least one result), and the value paired with each driver is
the arithmetic mean — sum divided by count — of that driver's integer-parsed
finishing positions across all races they appear in, in stream order. -/
theorem C6_mean_finish_position (p : ResultsPayload) (s : ChartSeries)
    (evs : List (String × Int))
    (hs : plot_average_finish_position_by_driver p = some s)
    (he : parsedEvents p = some evs) :
    s.labels = firstSeenDrivers (evs.map (fun e => e.1)) ∧
    (∀ d, d ∈ s.labels ↔ d ∈ evs.map (fun e => e.1)) ∧
    (∀ d ∈ s.labels,
      (s.labels.zip s.values).lookup d =
        some (((((evs.filter (fun e => decide (e.1 = d))).map (fun e => e.2)).sum : Int) : Rat) /
              (((evs.filter (fun e => decide (e.1 = d))).map (fun e => e.2)).length : Rat))) := by
  unfold plot_average_finish_position_by_driver at hs
  rw [avgFold_eq] at hs
  unfold parsedEvents at he
  rw [he] at hs
  simp only [Option.map_some', Option.some.injEq] at hs
  subst hs
  have hkeys : (evs.foldl (fun a e => addPosition a e.1 e.2) []).map (fun q => q.1)
      = firstSeenDrivers (evs.map (fun e => e.1)) := by
    rw [keys_foldl_add]
    rfl
  refine ⟨hkeys, ?_, ?_⟩
  · intro d
    show d ∈ (evs.foldl (fun a e => addPosition a e.1 e.2) []).map (fun q => q.1) ↔ _
    rw [hkeys]
    unfold firstSeenDrivers
    rw [mem_foldl_seen]
    simp
  · intro d hd
    have hd2 : d ∈ (evs.foldl (fun a e => addPosition a e.1 e.2) []).map (fun q => q.1) := hd
    have hzip : (((evs.foldl (fun a e => addPosition a e.1 e.2) []).map (fun q => q.1)).zip
          ((evs.foldl (fun a e => addPosition a e.1 e.2) []).map
            (fun q => ((q.2.sum : Int) : Rat) / (q.2.length : Rat))))
        = (evs.foldl (fun a e => addPosition a e.1 e.2) []).map
            (fun q => (q.1, ((q.2.sum : Int) : Rat) / (q.2.length : Rat))) :=
      zip_map_pair _ _ _
    have hlook : List.lookup d ((evs.foldl (fun a e => addPosition a e.1 e.2) []).map
          (fun q => (q.1, ((q.2.sum : Int) : Rat) / (q.2.length : Rat))))
        = some ((((assocGet [] (evs.foldl (fun a e => addPosition a e.1 e.2) []) d).sum : Int) : Rat) /
                ((assocGet [] (evs.foldl (fun a e => addPosition a e.1 e.2) []) d).length : Rat)) :=
      lookup_map_assoc (fun l : List Int => ((l.sum : Int) : Rat) / (l.length : Rat)) [] _ d hd2
    have hget : assocGet [] (evs.foldl (fun a e => addPosition a e.1 e.2) []) d
        = (evs.filter (fun e => decide (e.1 = d))).map (fun e => e.2) := by
      rw [assocGet_foldl_add]
      simp [assocGet]
    show List.lookup d ((((evs.foldl (fun a e => addPosition a e.1 e.2) []).map (fun q => q.1)).zip
        ((evs.foldl (fun a e => addPosition a e.1 e.2) []).map
          (fun q => ((q.2.sum : Int) : Rat) / (q.2.length : Rat))))) = _
    rw [hzip, hlook, hget]

/-- C6 witness: positions [1, 3, 2] average to exactly 2.0. -/
theorem C6_mean_finish_position_witness :
    plot_average_finish_position_by_driver pW6 = some sW6 ∧
    parsedEvents pW6 = some [("Alonso", 1), ("Alonso", 3), ("Alonso", 2)] ∧
    (sW6.labels.zip sW6.values).lookup "Alonso" = some 2 := by
  have hplot : plot_average_finish_position_by_driver pW6 = some sW6 := by
    unfold plot_average_finish_position_by_driver
    rw [show foldOpt (fun acc race =>
        foldOpt (fun acc2 result =>
            match pyInt result.position with
            | none => none
            | some pos => some (addPosition acc2 result.familyName pos))
          acc race.results) [] pW6.races
      = some [("Alonso", [1, 3, 2])] from by decide]
    simp only [Option.map_some', List.map_cons, List.map_nil, sW6]
    norm_num [List.sum_cons, List.sum_nil]
  have hev : parsedEvents pW6 = some [("Alonso", 1), ("Alonso", 3), ("Alonso", 2)] := by
    decide
  have hc := C6_mean_finish_position pW6 sW6 [("Alonso", 1), ("Alonso", 3), ("Alonso", 2)]
    hplot hev
  refine ⟨hplot, hev, ?_⟩
  rw [hc.2.2 "Alonso" (by decide)]
  rw [show ([("Alonso", (1 : Int)), ("Alonso", 3), ("Alonso", 2)].filter
      (fun e => decide (e.1 = "Alonso"))).map (fun e => e.2) = [1, 3, 2] from by decide]
  norm_num [List.sum_cons, List.sum_nil]

/-- C5: when Podium Finishes by Driver succeeds on a results payload whose
parsed (driver, position) event stream is evs, only results with parsed
position at most 3 are counted: the labels are the distinct drivers of the
qualifying (position ≤ 3) events in first-seen order, the value paired with
each driver equals the number of that driver's qualifying results, and the
values sum to the number of qualifying results — so no result with parsed
position greater than 3 is ever counted. -/
theorem C5_podium_position_at_most_three (p : ResultsPayload) (s : ChartSeries)
    (evs : List (String × Int))
    (hs : plot_podium_finishes_by_driver p = some s)
    (he : parsedEvents p = some evs) :
    s.labels = firstSeenDrivers ((evs.filter (fun e => decide (e.2 ≤ 3))).map (fun e => e.1)) ∧
    (∀ d ∈ s.labels,
      (s.labels.zip s.values).lookup d =
        some ((((evs.filter (fun e => decide (e.2 ≤ 3))).filter
            (fun e => decide (e.1 = d))).length : Rat))) ∧
    s.values.sum = ((evs.filter (fun e => decide (e.2 ≤ 3))).length : Rat) := by
  unfold plot_podium_finishes_by_driver at hs
  rw [podFold_eq] at hs
  unfold parsedEvents at he
  rw [he] at hs
  simp only [Option.map_some', Option.some.injEq] at hs
  subst hs
  rw [foldl_podium_skip, foldl_bump_on_fst]
  refine ⟨?_, ?_, ?_⟩
  · show (((evs.filter (fun e => decide (e.2 ≤ 3))).map (fun e => e.1)).foldl
        bumpCount []).map (fun q => q.1) = _
    rw [keys_foldl_bump]
    rfl
  · intro d hd
    have hd2 : d ∈ (((evs.filter (fun e => decide (e.2 ≤ 3))).map (fun e => e.1)).foldl
        bumpCount []).map (fun q => q.1) := hd
    have hzip : ((((evs.filter (fun e => decide (e.2 ≤ 3))).map (fun e => e.1)).foldl
            bumpCount []).map (fun q => q.1)).zip
          ((((evs.filter (fun e => decide (e.2 ≤ 3))).map (fun e => e.1)).foldl
            bumpCount []).map (fun q => (q.2 : Rat)))
        = (((evs.filter (fun e => decide (e.2 ≤ 3))).map (fun e => e.1)).foldl
            bumpCount []).map (fun q => (q.1, (q.2 : Rat))) :=
      zip_map_pair _ _ _
    have hlook : List.lookup d ((((evs.filter (fun e => decide (e.2 ≤ 3))).map
          (fun e => e.1)).foldl bumpCount []).map (fun q => (q.1, (q.2 : Rat))))
        = some ((assocGet 0 (((evs.filter (fun e => decide (e.2 ≤ 3))).map
            (fun e => e.1)).foldl bumpCount []) d : Nat) : Rat) :=
      lookup_map_assoc (fun v : Nat => (v : Rat)) 0 _ d hd2
    have hget : assocGet 0 (((evs.filter (fun e => decide (e.2 ≤ 3))).map
          (fun e => e.1)).foldl bumpCount []) d
        = ((evs.filter (fun e => decide (e.2 ≤ 3))).filter
            (fun e => decide (e.1 = d))).length := by
      rw [assocGet_foldl_bump]
      simp only [assocGet, Nat.zero_add]
      exact filter_fst_length _ d
    show List.lookup d (((((evs.filter (fun e => decide (e.2 ≤ 3))).map (fun e => e.1)).foldl
          bumpCount []).map (fun q => q.1)).zip
        ((((evs.filter (fun e => decide (e.2 ≤ 3))).map (fun e => e.1)).foldl
          bumpCount []).map (fun q => (q.2 : Rat)))) = _
    rw [hzip, hlook, hget]
  · show ((((evs.filter (fun e => decide (e.2 ≤ 3))).map (fun e => e.1)).foldl
        bumpCount []).map (fun q => (q.2 : Rat))).sum = _
    rw [sum_map_cast, sum_foldl_bump]
    simp

/-- C5 witness: the position 4 result of Sainz is not counted. -/
theorem C5_podium_position_at_most_three_witness :
    plot_podium_finishes_by_driver pW5 = some sW5 ∧
    parsedEvents pW5 = some [("Leclerc", 1), ("Sainz", 4), ("Leclerc", 2)] ∧
    (sW5.labels.zip sW5.values).lookup "Leclerc" = some 2 ∧
    sW5.values.sum =
      (([("Leclerc", (1 : Int)), ("Sainz", 4), ("Leclerc", 2)].filter
        (fun e => decide (e.2 ≤ 3))).length : Rat) := by
  have hplot : plot_podium_finishes_by_driver pW5 = some sW5 := by
    unfold plot_podium_finishes_by_driver
    rw [show foldOpt (fun acc race =>
        foldOpt (fun acc2 result =>
            match pyInt result.position with
            | none => none
            | some pos => some (if pos ≤ 3 then bumpCount acc2 result.familyName else acc2))
          acc race.results) [] pW5.races
      = some [("Leclerc", 2)] from by decide]
    simp [sW5]
  have hev : parsedEvents pW5 = some [("Leclerc", 1), ("Sainz", 4), ("Leclerc", 2)] := by
    decide
  have hc := C5_podium_position_at_most_three pW5 sW5
    [("Leclerc", 1), ("Sainz", 4), ("Leclerc", 2)] hplot hev
  refine ⟨hplot, hev, ?_, hc.2.2⟩
  rw [hc.2.1 "Leclerc" (by decide)]
  rw [show (([("Leclerc", (1 : Int)), ("Sainz", 4), ("Leclerc", 2)].filter
      (fun e => decide (e.2 ≤ 3))).filter (fun e => decide (e.1 = "Leclerc"))).length = 2
    from by decide]
  norm_num

/-- C9: every ChartSeries produced by any of the five aggregator functions has
a label sequence and a value sequence of equal length (index-aligned: both are
built by mapping over the same underlying entry list). -/
theorem C9_labels_values_same_length :
    (∀ (p : StandingsPayload) (s : ChartSeries),
      plot_total_points_distribution p = some s → s.labels.length = s.values.length) ∧
    (∀ (p : ResultsPayload) (s : ChartSeries),
      plot_average_finish_position_by_driver p = some s →
        s.labels.length = s.values.length) ∧
    (∀ (p : ResultsPayload) (s : ChartSeries),
      plot_most_wins_by_driver p = some s → s.labels.length = s.values.length) ∧
    (∀ (p : ConstructorStandingsPayload) (s : ChartSeries),
      plot_constructor_championship_standings p = some s →
        s.labels.length = s.values.length) ∧
    (∀ (p : ResultsPayload) (s : ChartSeries),
      plot_podium_finishes_by_driver p = some s → s.labels.length = s.values.length) := by
  refine ⟨?_, ?_, ?_, ?_, ?_⟩
  · intro p s hs
    cases hsl : p.standingsLists with
    | nil => simp [plot_total_points_distribution, hsl] at hs
    | cons l0 rest =>
      simp only [plot_total_points_distribution, hsl] at hs
      cases hm : mapOpt (fun dr => pyFloat dr.points) l0 with
      | none => rw [hm] at hs; cases hs
      | some vs =>
        rw [hm] at hs
        simp only [Option.map_some', Option.some.injEq] at hs
        subst hs
        simp [mapOpt_length _ _ _ hm]
  · intro p s hs
    unfold plot_average_finish_position_by_driver at hs
    rw [Option.map_eq_some'] at hs
    obtain ⟨t, _, hF⟩ := hs
    subst hF
    simp
  · intro p s hs
    unfold plot_most_wins_by_driver at hs
    rw [Option.map_eq_some'] at hs
    obtain ⟨t, _, hF⟩ := hs
    subst hF
    simp
  · intro p s hs
    cases hsl : p.standingsLists with
    | nil => simp [plot_constructor_championship_standings, hsl] at hs
    | cons l0 rest =>
      simp only [plot_constructor_championship_standings, hsl] at hs
      cases hm : mapOpt (fun c => pyFloat c.points) l0 with
      | none => rw [hm] at hs; cases hs
      | some vs =>
        rw [hm] at hs
        simp only [Option.map_some', Option.some.injEq] at hs
        subst hs
        simp [mapOpt_length _ _ _ hm]
  · intro p s hs
    unfold plot_podium_finishes_by_driver at hs
    rw [Option.map_eq_some'] at hs
    obtain ⟨t, _, hF⟩ := hs
    subst hF
    simp

/-- C9 witness: a concrete Most Wins series with aligned lengths. -/
theorem C9_labels_values_same_length_witness :
    plot_most_wins_by_driver pW9 = some sW9 ∧ sW9.labels.length = sW9.values.length := by
  have hplot : plot_most_wins_by_driver pW9 = some sW9 := by
    unfold plot_most_wins_by_driver
    rw [show foldOpt (fun acc race =>
        match race.results with
        | [] => none
        | winner :: _ => some (bumpCount acc winner.familyName)) [] pW9.races
      = some [("Hulkenberg", 1)] from by decide]
    simp [sW9]
  exact ⟨hplot, C9_labels_values_same_length.2.2.1 pW9 sW9 hplot⟩

/-- C10: in each of the three results-based aggregations (average finish
position, most wins, podium finishes) the labels of a successfully produced
series are pairwise distinct — results are grouped under one dict key per
driver before the series is emitted. -/
theorem C10_distinct_labels :
    (∀ (p : ResultsPayload) (s : ChartSeries),
      plot_average_finish_position_by_driver p = some s → s.labels.Nodup) ∧
    (∀ (p : ResultsPayload) (s : ChartSeries),
      plot_most_wins_by_driver p = some s → s.labels.Nodup) ∧
    (∀ (p : ResultsPayload) (s : ChartSeries),
      plot_podium_finishes_by_driver p = some s → s.labels.Nodup) := by
  refine ⟨?_, ?_, ?_⟩
  · intro p s hs
    unfold plot_average_finish_position_by_driver at hs
    rw [avgFold_eq] at hs
    cases he : mapOpt parseEv (raceResultsFlat p.races) with
    | none => rw [he] at hs; cases hs
    | some evs =>
      rw [he] at hs
      simp only [Option.map_some', Option.some.injEq] at hs
      subst hs
      show ((evs.foldl (fun a e => addPosition a e.1 e.2) []).map (fun q => q.1)).Nodup
      rw [keys_foldl_add]
      exact nodup_foldl_seen _ _ (by simp)
  · intro p s hs
    unfold plot_most_wins_by_driver at hs
    rw [winsFold_eq] at hs
    cases hw : winnersList p.races with
    | none => rw [hw] at hs; cases hs
    | some ws =>
      rw [hw] at hs
      simp only [Option.map_some', Option.some.injEq] at hs
      subst hs
      show ((ws.foldl bumpCount []).map (fun q => q.1)).Nodup
      rw [keys_foldl_bump]
      exact nodup_foldl_seen _ _ (by simp)
  · intro p s hs
    unfold plot_podium_finishes_by_driver at hs
    rw [podFold_eq] at hs
    cases he : mapOpt parseEv (raceResultsFlat p.races) with
    | none => rw [he] at hs; cases hs
    | some evs =>
      rw [he] at hs
      simp only [Option.map_some', Option.some.injEq] at hs
      subst hs
      show ((evs.foldl (fun a e => if e.2 ≤ 3 then bumpCount a e.1 else a) []).map
        (fun q => q.1)).Nodup
      rw [foldl_podium_skip, foldl_bump_on_fst, keys_foldl_bump]
      exact nodup_foldl_seen _ _ (by simp)


/-- C10 witness: duplicate winners collapse to a single distinct label. -/
theorem C10_distinct_labels_witness :
    plot_most_wins_by_driver pW10 = some sW10 ∧ sW10.labels.Nodup := by
  have hplot : plot_most_wins_by_driver pW10 = some sW10 := by
    unfold plot_most_wins_by_driver
    rw [show foldOpt (fun acc race =>
        match race.results with
        | [] => none
        | winner :: _ => some (bumpCount acc winner.familyName)) [] pW10.races
      = some [("Norris", 2)] from by decide]
    simp [sW10]
  exact ⟨hplot, C10_distinct_labels.2.1 pW10 sW10 hplot⟩

/-- C8 (amended): with data loaded, a results payload containing a
non-numeric or missing finishing-position value makes the aggregation raise a
parsing error that is propagated, not masked: the chart update is aborted
before the redraw is committed (the axes are cleared but the canvas keeps its
previous content). The error is NOT caught at the action-handler boundary —
`update_chart` has no handler around the plot calls — so the outcome is an
exception escaping the handler rather than a user-facing message (the only
message `update_chart` ever shows is the no-data error). -/
theorem C8_parse_error_escapes_handler (d : DataStore) (surf : Surface)
    (rp : ResultsPayload)
    (hne : d.isEmpty = false) (hr : d.results = some rp)
    (hp : parsedEvents rp = none) :
    update_chart d surf ChartType.avgFinish =
      ({ surf with figure := none }, UpdateOutcome.exception) := by
  have hplot : plot_average_finish_position_by_driver rp = none := by
    unfold plot_average_finish_position_by_driver
    rw [avgFold_eq]
    unfold parsedEvents at hp
    rw [hp]
    rfl
  simp [update_chart, hne, dispatchPlot, hr, hplot]


/-- C8 witness: the "DNF" position aborts the average-finish update with an
uncaught exception and no redraw. -/
theorem C8_parse_error_escapes_handler_witness :
    dC8.isEmpty = false ∧
    dC8.results = some ⟨[⟨[⟨"Verstappen", "DNF"⟩]⟩]⟩ ∧
    parsedEvents ⟨[⟨[⟨"Verstappen", "DNF"⟩]⟩]⟩ = none ∧
    update_chart dC8 ⟨none, none⟩ ChartType.avgFinish =
      (⟨none, none⟩, UpdateOutcome.exception) :=
  ⟨by decide, by decide, by decide,
   C8_parse_error_escapes_handler dC8 ⟨none, none⟩ ⟨[⟨[⟨"Verstappen", "DNF"⟩]⟩]⟩
     (by decide) (by decide) (by decide)⟩

/-- C8 counterexample to the claim's reporting clause: with data loaded and a
non-numeric position, the update ends in the exception outcome — the parse
error escapes `update_chart` uncaught — which is not the message-box outcome
the claim requires at the action-handler boundary. -/
theorem C8_counterexample_no_message :
    (update_chart dC8 ⟨none, none⟩ ChartType.avgFinish).2 = UpdateOutcome.exception ∧
    UpdateOutcome.exception ≠ UpdateOutcome.errorNoData :=
  ⟨by decide, by decide⟩
